import Mathlib

/-
Verification of the vello campaign scheduling and delivery state machine.

This file gives a shallow embedding, in Lean 4, of the core of the vello
repository (backend/src/vello): the entity records of core/models.py, the
intent classifier of services/analysis.py, and the operations of
services/campaign_manager.py.  The persistent store is modelled as plain
lists of records kept in insertion order; a SQLAlchemy query with .first()
returns the first matching row of that order, and .all() returns the list of
matching rows.  Timestamps are integers counting seconds (datetime.utcnow
values), so datetime subtraction becomes integer subtraction and
timedelta.total_seconds comparison stays exact.  The e-mail transport and the
HTML-to-text converter, which the specification treats as external
collaborators, are passed in as function parameters.
-/

namespace Vello

/-- DeliveryStatus enum of core/models.py. -/
inductive DeliveryStatus where
  | PENDING
  | SENT
  | FAILED
deriving DecidableEq, Repr

/-- ResponseStatus enum of core/models.py. -/
inductive ResponseStatus where
  | PENDING
  | POSITIVE
  | NEGATIVE
  | OPENED
  | CLICKED
  | UNOPENED
  | UNCLICKED
  | UNSUBSCRIBED
  | FAILED
deriving DecidableEq, Repr

/-- Campaign row of core/models.py. -/
structure CampaignRec where
  id : Nat
  name : String
  created_at : Int
deriving DecidableEq, Repr

/-- CampaignStep row of core/models.py.  position is an arbitrary Python int,
so it is modelled as Int; delay_minutes likewise. -/
structure CampaignStepRec where
  id : Nat
  campaign_id : Nat
  position : Int
  delay_minutes : Int
  subject : String
  body_text : Option String
  body_html : Option String
deriving DecidableEq, Repr

/-- Recipient row of core/models.py.  vars_json is the nullable Text column
holding whatever string add_recipients stored. -/
structure RecipientRec where
  id : Nat
  campaign_id : Nat
  email : String
  name : Option String
  vars_json : Option String
  suppressed : Bool
  created_at : Int
deriving DecidableEq, Repr

/-- Delivery row of core/models.py. -/
structure DeliveryRec where
  id : Nat
  step_id : Nat
  recipient_id : Nat
  status : DeliveryStatus
  last_error : Option String
  sent_at : Option Int
  created_at : Int
  message_id : Option String
deriving DecidableEq, Repr

/-- Response row of core/models.py. -/
structure ResponseRec where
  recipient_id : Nat
  delivery_id : Option Nat
  content : String
  status : ResponseStatus
  created_at : Int
deriving DecidableEq, Repr

/-- The relational store: one list per table, rows in insertion order. -/
structure DB where
  campaigns : List CampaignRec
  steps : List CampaignStepRec
  recipients : List RecipientRec
  deliveries : List DeliveryRec
  responses : List ResponseRec
deriving DecidableEq, Repr

/-- Result record returned by EmailProvider.send_email (email/base.py). -/
structure EmailResult where
  success : Bool
  message_id : Option String
  error : Option String
deriving DecidableEq, Repr

/-- One invocation of the transport collaborator: the arguments the
campaign manager passes to EmailProvider.send_email.  The field to_addr
models the keyword argument named to in the source, a name Lean reserves. -/
structure SendCall where
  to_addr : String
  subject : String
  body_text : Option String
  body_html : Option String
deriving DecidableEq, Repr

/-- Python truthiness of an Optional[str]: None and the empty string are
falsy, any other string is truthy. -/
def truthyStr : Option String → Bool
  | none => false
  | some s => s ≠ ""

/-- Python `a or b` for an Optional[str] `a` and a str default `b`. -/
def pyOrStr : Option String → String → String
  | none, d => d
  | some s, d => if s = "" then d else s

/-- The apostrophe character, U+0027. -/
def sqChar : Char := Char.ofNat 39

/-- The double-quote character, U+0022. -/
def dqChar : Char := Char.ofNat 34

/-- The backslash character, U+005C. -/
def bslashChar : Char := Char.ofNat 92

/-- Apostrophe as a one-character string. -/
def sq : String := String.singleton sqChar

/-- Double quote as a one-character string. -/
def dq : String := String.singleton dqChar

/- ----------------------------------------------------------------------
services/analysis.py
---------------------------------------------------------------------- -/

/-- Word character in the sense of the regex \b boundary: ASCII letters,
digits and underscore.  (Python re on str is Unicode-aware; every pattern in
analysis.py is ASCII, so the ASCII notion is used here.) -/
def isWordChar (c : Char) : Bool := c.isAlphanum || c == '_'

/-- Does `text` start with `phrase`, with a \b word boundary immediately after
the phrase (end of text, or a non-word character)?  Every phrase in
analysis.py begins and ends with a word character, so the trailing \b of its
regex group reduces to exactly this test. -/
def startsWithPhraseEnd : List Char → List Char → Bool
  | rest, [] =>
    match rest with
    | [] => true
    | c :: _ => !isWordChar c
  | [], _ :: _ => false
  | c :: cs, p :: ps => c == p && startsWithPhraseEnd cs ps

/-- Scan of re.search for one phrase: is there a position in `text`, preceded
by the start of the text or a non-word character (the leading \b), where the
phrase occurs followed by a trailing \b?  `prev` is the character just before
the current position, if any. -/
def searchPhraseAux (phrase : List Char) : Option Char → List Char → Bool
  | _, [] => false
  | prev, c :: cs =>
    ((match prev with
      | none => true
      | some p => !isWordChar p) && startsWithPhraseEnd (c :: cs) phrase)
    || searchPhraseAux phrase (some c) cs

/-- re.search of the word-bounded phrase in the text: existence of a match. -/
def phraseFound (text phrase : String) : Bool :=
  searchPhraseAux phrase.toList none text.toList

/-- re.search of one alternation pattern `\b(p1|p2|...)\b`: some alternative
matches somewhere in the text. -/
def patternFound (text : String) (alternatives : List String) : Bool :=
  alternatives.any (phraseFound text)

/-- Any pattern of the pattern list matches (the for-loops of
analyze_intent). -/
def anyPatternFound (text : String) (patterns : List (List String)) : Bool :=
  patterns.any (patternFound text)

/-- POSITIVE_PATTERNS of analysis.py: the four regexes, each written as the
list of the alternatives of its group.  Apostrophes inside phrases are the
regex escape-sequence apostrophes of the source. -/
def POSITIVE_PATTERNS : List (List String) :=
  [ ["interested", "yes", "sure", "sounds good", "tell me more",
     "let" ++ sq ++ "s talk", "call me", "schedule", "meeting", "demo"],
    ["want to hear more", "would like to", "looking forward", "excited",
     "great"],
    ["please send", "send me", "share more", "more info", "more information"],
    ["i" ++ sq ++ "d like", "i would like", "i want to", "keen to",
     "happy to"] ]

/-- NEGATIVE_PATTERNS of analysis.py. -/
def NEGATIVE_PATTERNS : List (List String) :=
  [ ["not interested", "no thanks", "unsubscribe", "stop", "remove me",
     "don" ++ sq ++ "t contact"],
    ["no longer", "not right now", "not at this time", "pass", "decline"],
    ["already have", "not looking", "not needed"] ]

/-- UNSUBSCRIBE_PATTERNS of analysis.py. -/
def UNSUBSCRIBE_PATTERNS : List (List String) :=
  [ ["unsubscribe", "opt out", "remove", "stop emailing", "stop sending"] ]

/-- Python str.lower, character by character.  Char.toLower is the ASCII
case mapping, which coincides with Python on the ASCII pattern alphabet of
analysis.py. -/
def strToLower (s : String) : String :=
  String.mk (s.toList.map Char.toLower)

/-- analyze_intent of services/analysis.py.  `if not text` is Python
truthiness of a str (empty means falsy); the text is lowercased and then
searched against the three pattern groups in priority order.  The
re.IGNORECASE flag is redundant after .lower() since every pattern is already
lowercase ASCII. -/
def analyze_intent (text : String) : ResponseStatus :=
  if text = "" then ResponseStatus.PENDING
  else
    let text_lower := strToLower text
    if anyPatternFound text_lower UNSUBSCRIBE_PATTERNS then
      ResponseStatus.UNSUBSCRIBED
    else if anyPatternFound text_lower NEGATIVE_PATTERNS then
      ResponseStatus.NEGATIVE
    else if anyPatternFound text_lower POSITIVE_PATTERNS then
      ResponseStatus.POSITIVE
    else ResponseStatus.PENDING

/- ----------------------------------------------------------------------
Python dict repr and json.loads, as used by add_recipients and
_send_campaign_email.  The template variables of a recipient form a flat
dict mapping string keys to string values, modelled as an association list
in insertion order (Python dicts preserve insertion order).
---------------------------------------------------------------------- -/

/-- dict.get on an association list: first binding of the key, if any. -/
def dictGet (d : List (String × String)) (k : String) : Option String :=
  (d.find? (fun kv => kv.1 == k)).map (fun kv => kv.2)

/-- dict.setdefault: keep an existing binding of the key, otherwise append
the default at the end (new keys go to the end of a Python dict). -/
def setdefault (d : List (String × String)) (k v : String) :
    List (String × String) :=
  if (d.find? (fun kv => kv.1 == k)).isSome then d else d ++ [(k, v)]

/-- repr of a Python str, restricted to strings without backslashes or
control characters (the only kind appearing here): single-quoted by default,
double-quoted when the string contains an apostrophe but no double quote. -/
def pyReprStr (s : String) : String :=
  if s.toList.contains sqChar && !(s.toList.contains dqChar) then
    dq ++ s ++ dq
  else
    sq ++ s ++ sq

/-- str() of a Python dict with string keys and string values:
a brace-delimited, comma-separated list of repr(key): repr(value), e.g.
str of a dict binding name to Alice is \x7b'name': 'Alice'\x7d.  This is the
value add_recipients stores into Recipient.vars_json. -/
def pyStrOfDict (d : List (String × String)) : String :=
  "\x7b" ++
    String.intercalate ", "
      (d.map (fun kv => pyReprStr kv.1 ++ ": " ++ pyReprStr kv.2)) ++
  "\x7d"

/-- JSON whitespace. -/
def jsonWs (c : Char) : Bool :=
  c == ' ' || c == Char.ofNat 9 || c == Char.ofNat 10 || c == Char.ofNat 13

/-- Drop leading JSON whitespace. -/
def skipWs : List Char → List Char
  | [] => []
  | c :: cs => if jsonWs c then skipWs cs else c :: cs

/-- Parse one JSON string literal: a double quote, characters, a double
quote; returns the contents and the rest.  Escape sequences are not needed
for the inputs arising here and are rejected, as is any non-string token:
in every such case json.loads raises, which this model maps to none. -/
def parseJsonString : List Char → Option (String × List Char)
  | [] => none
  | c :: cs =>
    if c == dqChar then parseJsonStringAux cs [] else none
where
  parseJsonStringAux : List Char → List Char → Option (String × List Char)
    | [], _ => none
    | c :: cs, acc =>
      if c == dqChar then some (String.mk acc.reverse, cs)
      else if c == bslashChar then none
      else parseJsonStringAux cs (c :: acc)

/-- Parse the members of a JSON object after the opening brace (first member
onward), returning the bindings and the rest after the closing brace.  The
fuel argument bounds recursion depth; callers pass the input length, which
suffices since every member consumes at least one character. -/
def parseJsonMembers : Nat → List Char → Option (List (String × String) × List Char)
  | 0, _ => none
  | Nat.succ fuel, cs =>
    match parseJsonString (skipWs cs) with
    | none => none
    | some (k, r1) =>
      match skipWs r1 with
      | [] => none
      | c :: r2 =>
        if c == ':' then
          match parseJsonString (skipWs r2) with
          | none => none
          | some (v, r3) =>
            match skipWs r3 with
            | [] => none
            | c2 :: r4 =>
              if c2 == ',' then
                match parseJsonMembers fuel r4 with
                | none => none
                | some (ps, rest) => some ((k, v) :: ps, rest)
              else if c2 == Char.ofNat 125 then some ([(k, v)], r4)
              else none
        else none

/-- json.loads restricted to flat JSON objects with string values, the only
shape _send_campaign_email consumes: none models a raised
json.JSONDecodeError (for example on the single-quoted output of str(dict)),
some gives the parsed bindings in order. -/
def jsonLoadsStrDict (s : String) : Option (List (String × String)) :=
  match skipWs s.toList with
  | [] => none
  | c :: cs =>
    if c == Char.ofNat 123 then
      match skipWs cs with
      | [] => none
      | d :: rest =>
        if d == Char.ofNat 125 then
          if (skipWs rest).isEmpty then some [] else none
        else
          match parseJsonMembers (cs.length + 1) (d :: rest) with
          | none => none
          | some (ps, after) =>
            if (skipWs after).isEmpty then some ps else none
    else none

/-- email.split of the at sign, first component: everything before the first
at sign, or the whole string when there is none (Python split returns the
whole string as the single component then). -/
def localPart (email : String) : String :=
  String.mk (email.toList.takeWhile (fun c => c != '@'))

/-- Lines 261 to 273 of campaign_manager.py, the variable-building part of
_send_campaign_email: parse Recipient.vars_json when truthy (a failed parse
is swallowed by except-pass, leaving the empty dict), then setdefault the
name (recipient name, or the local part of the email, under Python or) and
the email.  The resulting dict is built and then never passed to the
transport by the source (template rendering is an unimplemented TODO). -/
def sendEmailVariables (r : RecipientRec) : List (String × String) :=
  let vars0 : List (String × String) :=
    match r.vars_json with
    | none => []
    | some s =>
      if s = "" then []
      else
        match jsonLoadsStrDict s with
        | some d => d
        | none => []
  let vars1 := setdefault vars0 "name" (pyOrStr r.name (localPart r.email))
  setdefault vars1 "email" r.email

/- ----------------------------------------------------------------------
services/campaign_manager.py
---------------------------------------------------------------------- -/

/-- Loop body of add_recipients for one email over the accumulated store:
skip when a recipient with this campaign and email already exists, else
insert a new Recipient row.  names.get gives the optional display name;
vars_json stores str() of the variables dict when that dict is present and
nonempty (Python truthiness of a dict), else NULL.  The new row gets the
next primary key. -/
def addRecipientsLoop (campaign_id : Nat) (now : Int)
    (names : Option (List (String × String)))
    (vars_json : Option (List (String × List (String × String)))) :
    List String → DB → Nat → Nat → Nat × DB
  | [], db, _, count => (count, db)
  | email :: rest, db, next_id, count =>
    if (db.recipients.find? (fun r =>
          r.campaign_id == campaign_id && r.email == email)).isSome then
      addRecipientsLoop campaign_id now names vars_json rest db next_id count
    else
      let nameVal : Option String :=
        match names with
        | none => none
        | some ns => (ns.find? (fun kv => kv.1 == email)).map (fun kv => kv.2)
      let varsVal : Option String :=
        match vars_json with
        | none => none
        | some vm =>
          match (vm.find? (fun kv => kv.1 == email)).map (fun kv => kv.2) with
          | none => none
          | some d => if d = [] then none else some (pyStrOfDict d)
      let r : RecipientRec :=
        { id := next_id, campaign_id := campaign_id, email := email,
          name := nameVal, vars_json := varsVal, suppressed := false,
          created_at := now }
      addRecipientsLoop campaign_id now names vars_json rest
        { db with recipients := db.recipients ++ [r] } (next_id + 1) (count + 1)

/-- add_recipients of campaign_manager.py.  next_id supplies the primary
keys the store would assign.  Returns the count of recipients inserted and
the committed store. -/
def add_recipients (db : DB) (now : Int) (next_id : Nat) (campaign_id : Nat)
    (emails : List String) (names : Option (List (String × String)))
    (vars_json : Option (List (String × List (String × String)))) : Nat × DB :=
  addRecipientsLoop campaign_id now names vars_json emails db next_id 0

/-- Python truthiness of the ORM class attribute Recipient.suppressed as it
occurs in the query of process_pending_deliveries (line 176 of
campaign_manager.py): the attribute is an InstrumentedAttribute object, a
class that defines no __bool__, so bool() of it is True.  The source applies
Python not to it, obtaining the constant False, which SQLAlchemy coerces to
the SQL literal false inside the WHERE clause. -/
def recipientSuppressedAttrTruthy : Bool := true

/-- Python truthiness of the Optional[int] campaign_id argument, as tested
by `if campaign_id:` on line 180: None and 0 are falsy. -/
def truthyOptNat : Option Nat → Bool
  | none => false
  | some n => n != 0

/-- The query of lines 169 to 183: Delivery joined (inner) to Recipient and
CampaignStep along the foreign keys, filtered by status == PENDING and by
the row-independent constant described at recipientSuppressedAttrTruthy,
optionally scoped to one campaign through the joined Recipient. -/
def pending_deliveries_query (db : DB) (campaign_id : Option Nat) :
    List DeliveryRec :=
  db.deliveries.filter fun d =>
    (db.recipients.any fun r =>
      r.id == d.recipient_id &&
      (match campaign_id with
       | none => true
       | some cid => if cid != 0 then r.campaign_id == cid else true)) &&
    (db.steps.any fun st => st.id == d.step_id) &&
    d.status == DeliveryStatus.PENDING &&
    !recipientSuppressedAttrTruthy

/-- Lines 186 to 227 of process_pending_deliveries, the per-delivery
readiness decision: position-0 steps gate on time since recipient creation;
later steps look up the step at position-1 of the recipient's campaign (the
source writes recipient.campaign.id, equal to recipient.campaign_id by the
foreign key) and, when that step exists, require its delivery for this
recipient to exist with status SENT and, when its sent_at is set, enough
elapsed time; when no position-1 step exists the source falls through with
no check at all and the delivery is treated as due.  True means the loop
proceeds to send; false models continue. -/
def readinessCheck (db : DB) (now : Int) (step : CampaignStepRec)
    (recipient : RecipientRec) : Bool :=
  if step.position == 0 then
    if now - recipient.created_at < step.delay_minutes * 60 then false
    else true
  else
    match db.steps.find? (fun st =>
        st.campaign_id == recipient.campaign_id &&
        st.position == step.position - 1) with
    | none => true
    | some prev_step =>
      match db.deliveries.find? (fun pd =>
          pd.recipient_id == recipient.id && pd.step_id == prev_step.id) with
      | none => false
      | some prev_delivery =>
        if prev_delivery.status != DeliveryStatus.SENT then false
        else
          match prev_delivery.sent_at with
          | none => true
          | some t =>
            if now - t < step.delay_minutes * 60 then false
            else true

/-- _send_campaign_email of campaign_manager.py: the source first builds the
template variables (sendEmailVariables) and then never uses them; the body
text is derived from the HTML body by the html-to-text collaborator when the
HTML is truthy and the text is not; the transport collaborator is invoked
with recipient address, step subject and the two bodies. -/
def sendCampaignEmail (send : SendCall → EmailResult)
    (htmlToText : String → String) (step : CampaignStepRec)
    (recipient : RecipientRec) : SendCall × EmailResult :=
  let body_html := step.body_html
  let body_text :=
    if truthyStr body_html && !truthyStr step.body_text then
      some (htmlToText (body_html.getD ""))
    else step.body_text
  let call : SendCall :=
    { to_addr := recipient.email, subject := step.subject,
      body_text := body_text, body_html := body_html }
  (call, send call)

/-- Outcome of one processing pass: the count returned by the source, the
committed store, and the trace of transport invocations (observable calls to
EmailProvider.send_email, in order). -/
structure ProcessResult where
  sent_count : Nat
  db : DB
  calls : List SendCall
deriving DecidableEq, Repr

/-- The for-loop of process_pending_deliveries over the queried deliveries:
look up the step and recipient of the delivery (both exist for every row the
joined query returns), run the readiness decision, and on dispatch apply the
terminal transition for the transport outcome to the delivery row.  The
store is threaded so that later iterations see earlier transitions, as the
ORM session does. -/
def processLoop (send : SendCall → EmailResult) (htmlToText : String → String)
    (now : Int) : List DeliveryRec → DB → Nat → List SendCall → ProcessResult
  | [], db, count, calls => { sent_count := count, db := db, calls := calls }
  | d :: rest, db, count, calls =>
    match db.steps.find? (fun st => st.id == d.step_id),
          db.recipients.find? (fun r => r.id == d.recipient_id) with
    | some step, some recipient =>
      if readinessCheck db now step recipient then
        let (call, result) := sendCampaignEmail send htmlToText step recipient
        let d' :=
          if result.success then
            { d with status := DeliveryStatus.SENT, sent_at := some now,
                     message_id := result.message_id }
          else
            { d with status := DeliveryStatus.FAILED,
                     last_error := result.error }
        let db' := { db with
          deliveries := db.deliveries.map (fun x => if x.id == d.id then d' else x) }
        processLoop send htmlToText now rest db'
          (if result.success then count + 1 else count) (calls ++ [call])
      else processLoop send htmlToText now rest db count calls
    | _, _ => processLoop send htmlToText now rest db count calls

/-- process_pending_deliveries of campaign_manager.py: run the query of
lines 169 to 183 and iterate the dispatch loop over its rows, committing the
resulting transitions; returns the count of successful sends. -/
def process_pending_deliveries (db : DB) (send : SendCall → EmailResult)
    (htmlToText : String → String) (now : Int) (campaign_id : Option Nat) :
    ProcessResult :=
  processLoop send htmlToText now (pending_deliveries_query db campaign_id)
    db 0 []

/-- handle_response of campaign_manager.py.  The recipient is looked up by
email alone (first matching row); an unknown responder returns PENDING and
touches nothing.  Otherwise the content is classified, a Response row is
appended, and when the auto-unsubscribe flag (config
AUTO_UNSUBSCRIBE_ON_REQUEST, passed here as a parameter) is set and the
classification is UNSUBSCRIBED, the recipient row is suppressed and every
PENDING delivery of that recipient whose step row exists (the query joins
CampaignStep) is transitioned to FAILED with the unsubscribe message. -/
def handle_response (db : DB) (auto_unsubscribe_on_request : Bool) (now : Int)
    (recipient_email : String) (content : String) (delivery_id : Option Nat) :
    ResponseStatus × DB :=
  match db.recipients.find? (fun r => r.email == recipient_email) with
  | none => (ResponseStatus.PENDING, db)
  | some recipient =>
    let status := analyze_intent content
    let db1 : DB := { db with responses := db.responses ++
      [{ recipient_id := recipient.id, delivery_id := delivery_id,
         content := content, status := status, created_at := now }] }
    if auto_unsubscribe_on_request && status == ResponseStatus.UNSUBSCRIBED then
      let db2 : DB := { db1 with
        recipients := db1.recipients.map (fun r =>
          if r.id == recipient.id then { r with suppressed := true } else r),
        deliveries := db1.deliveries.map (fun d =>
          if d.recipient_id == recipient.id &&
             d.status == DeliveryStatus.PENDING &&
             db1.steps.any (fun st => st.id == d.step_id) then
            { d with status := DeliveryStatus.FAILED,
                     last_error := some "Recipient unsubscribed" }
          else d) }
      (status, db2)
    else (status, db1)

/-- The statistics dictionary built by get_campaign_stats, with the nested
deliveries and responses dictionaries flattened into fields. -/
structure CampaignStats where
  campaign_id : Nat
  campaign_name : String
  total_recipients : Nat
  suppressed : Nat
  active_recipients : Nat
  deliveries_sent : Nat
  deliveries_pending : Nat
  deliveries_failed : Nat
  deliveries_total : Nat
  responses_positive : Nat
  responses_negative : Nat
  responses_unsubscribed : Nat
  responses_total : Nat
deriving DecidableEq, Repr

/-- get_campaign_stats of campaign_manager.py.  A missing campaign returns
the empty dictionary, modelled as none; otherwise the read-only snapshot of
counts. -/
def get_campaign_stats (db : DB) (campaign_id : Nat) : Option CampaignStats :=
  match db.campaigns.find? (fun c => c.id == campaign_id) with
  | none => none
  | some campaign =>
    let recips := db.recipients.filter (fun r => r.campaign_id == campaign_id)
    let suppressedCount := (recips.filter (fun r => r.suppressed)).length
    let ds := db.deliveries.filter (fun d =>
      db.recipients.any (fun r =>
        r.id == d.recipient_id && r.campaign_id == campaign_id))
    let rs := db.responses.filter (fun resp =>
      db.recipients.any (fun r =>
        r.id == resp.recipient_id && r.campaign_id == campaign_id))
    some
      { campaign_id := campaign_id,
        campaign_name := campaign.name,
        total_recipients := recips.length,
        suppressed := suppressedCount,
        active_recipients := recips.length - suppressedCount,
        deliveries_sent :=
          (ds.filter (fun d => d.status == DeliveryStatus.SENT)).length,
        deliveries_pending :=
          (ds.filter (fun d => d.status == DeliveryStatus.PENDING)).length,
        deliveries_failed :=
          (ds.filter (fun d => d.status == DeliveryStatus.FAILED)).length,
        deliveries_total := ds.length,
        responses_positive :=
          (rs.filter (fun r => r.status == ResponseStatus.POSITIVE)).length,
        responses_negative :=
          (rs.filter (fun r => r.status == ResponseStatus.NEGATIVE)).length,
        responses_unsubscribed :=
          (rs.filter (fun r => r.status == ResponseStatus.UNSUBSCRIBED)).length,
        responses_total := rs.length }

/-- Loop of initialize_campaign_deliveries over the active recipients:
create a PENDING delivery for the first step unless one already exists for
the (recipient, step) pair.  New rows get consecutive primary keys. -/
def initDeliveriesLoop (first_step_id : Nat) (now : Int) :
    List RecipientRec → DB → Nat → Nat → Nat × DB
  | [], db, _, count => (count, db)
  | r :: rest, db, next_id, count =>
    if (db.deliveries.find? (fun d =>
          d.recipient_id == r.id && d.step_id == first_step_id)).isSome then
      initDeliveriesLoop first_step_id now rest db next_id count
    else
      let d : DeliveryRec :=
        { id := next_id, step_id := first_step_id, recipient_id := r.id,
          status := DeliveryStatus.PENDING, last_error := none,
          sent_at := none, created_at := now, message_id := none }
      initDeliveriesLoop first_step_id now rest
        { db with deliveries := db.deliveries ++ [d] } (next_id + 1) (count + 1)

/-- initialize_campaign_deliveries of campaign_manager.py: zero when the
campaign or its position-0 step is missing, else one PENDING delivery per
non-suppressed recipient of the campaign that lacks one. -/
def initialize_campaign_deliveries (db : DB) (now : Int) (next_id : Nat)
    (campaign_id : Nat) : Nat × DB :=
  match db.campaigns.find? (fun c => c.id == campaign_id) with
  | none => (0, db)
  | some _ =>
    match db.steps.find? (fun st =>
        st.campaign_id == campaign_id && st.position == 0) with
    | none => (0, db)
    | some first_step =>
      initDeliveriesLoop first_step.id now
        (db.recipients.filter (fun r =>
          r.campaign_id == campaign_id && r.suppressed == false))
        db next_id 0

/- ----------------------------------------------------------------------
Concrete stores and collaborators used to evaluate the operations.
---------------------------------------------------------------------- -/

/-- A transport that always reports success, as in the end-to-end scenario
of the specification. -/
def alwaysOkTransport : SendCall → EmailResult :=
  fun _ => { success := true, message_id := some "msg-1", error := none }

/-- The identity html-to-text collaborator, enough for scenarios whose steps
carry a plain-text body. -/
def idHtmlToText : String → String := fun s => s

/-- A store with no rows at all. -/
def noTableDB : DB :=
  { campaigns := [], steps := [], recipients := [], deliveries := [],
    responses := [] }

/-- Campaign Welcome of the end-to-end scenario. -/
def c1Campaign : CampaignRec := { id := 1, name := "Welcome", created_at := 0 }

/-- Step 0 of the end-to-end scenario: position 0, no delay. -/
def c1Step : CampaignStepRec :=
  { id := 1, campaign_id := 1, position := 0, delay_minutes := 0,
    subject := "Hi", body_text := some "Hello", body_html := none }

/-- The non-suppressed recipient of the end-to-end scenario. -/
def c1Recipient : RecipientRec :=
  { id := 1, campaign_id := 1, email := "a@x.com", name := none,
    vars_json := none, suppressed := false, created_at := 0 }

/-- The PENDING step-0 delivery of the end-to-end scenario. -/
def c1Delivery : DeliveryRec :=
  { id := 1, step_id := 1, recipient_id := 1,
    status := DeliveryStatus.PENDING, last_error := none, sent_at := none,
    created_at := 0, message_id := none }

/-- The initialized store of the end-to-end scenario: one campaign, its
step 0, one non-suppressed recipient holding one PENDING delivery. -/
def c1DB : DB :=
  { campaigns := [c1Campaign], steps := [c1Step],
    recipients := [c1Recipient], deliveries := [c1Delivery],
    responses := [] }

/-- A follow-up step at position 1 with a one-hour delay. -/
def c2Step : CampaignStepRec :=
  { id := 5, campaign_id := 1, position := 1, delay_minutes := 60,
    subject := "Follow-up", body_text := some "More", body_html := none }

/-- The PENDING delivery for the position-1 step of the broken-chain
store. -/
def c2PendingDelivery : DeliveryRec :=
  { id := 1, step_id := 5, recipient_id := 1,
    status := DeliveryStatus.PENDING, last_error := none,
    sent_at := none, created_at := 0, message_id := none }

/-- Store whose only step is the position-1 step: the campaign has no
position-0 step at all, and the recipient holds a PENDING delivery for
the position-1 step. -/
def c2DB : DB :=
  { campaigns := [c1Campaign], steps := [c2Step],
    recipients := [c1Recipient],
    deliveries := [c2PendingDelivery],
    responses := [] }

/-- The position-0 predecessor step used by the chain scenarios. -/
def c2PrevStep : CampaignStepRec :=
  { id := 4, campaign_id := 1, position := 0, delay_minutes := 0,
    subject := "Hi", body_text := some "Hello", body_html := none }

/-- A position-0 step with no delay. -/
def c3StepDelay0 : CampaignStepRec :=
  { id := 1, campaign_id := 1, position := 0, delay_minutes := 0,
    subject := "Hi", body_text := none, body_html := none }

/-- A position-0 step with a 60-minute delay. -/
def c3StepDelay60 : CampaignStepRec :=
  { id := 1, campaign_id := 1, position := 0, delay_minutes := 60,
    subject := "Hi", body_text := none, body_html := none }

/-- A recipient created at time 0. -/
def c3Recipient : RecipientRec :=
  { id := 1, campaign_id := 1, email := "a@x.com", name := none,
    vars_json := none, suppressed := false, created_at := 0 }

/-- The PENDING delivery of the cascade scenario. -/
def c5Pending : DeliveryRec :=
  { id := 1, step_id := 5, recipient_id := 1,
    status := DeliveryStatus.PENDING, last_error := none,
    sent_at := none, created_at := 0, message_id := none }

/-- The SENT delivery of the cascade scenario. -/
def c5Sent : DeliveryRec :=
  { id := 2, step_id := 4, recipient_id := 1,
    status := DeliveryStatus.SENT, last_error := none,
    sent_at := some 0, created_at := 0, message_id := some "msg-0" }

/-- The FAILED delivery of the cascade scenario. -/
def c5Failed : DeliveryRec :=
  { id := 3, step_id := 4, recipient_id := 1,
    status := DeliveryStatus.FAILED, last_error := some "boom",
    sent_at := none, created_at := 0, message_id := none }

/-- Store for the unsubscribe-cascade scenario: one campaign, two steps,
one recipient holding one PENDING, one SENT and one FAILED delivery. -/
def c5DB : DB :=
  { campaigns := [c1Campaign],
    steps := [c2PrevStep, c2Step],
    recipients := [c1Recipient],
    deliveries := [c5Pending, c5Sent, c5Failed],
    responses := [] }

/-- Second campaign used by the cross-campaign scenario. -/
def c10Campaign2 : CampaignRec := { id := 2, name := "Other", created_at := 0 }

/-- The same email address enrolled as a recipient of campaign 2. -/
def c10Recipient2 : RecipientRec :=
  { id := 2, campaign_id := 2, email := "a@x.com", name := none,
    vars_json := none, suppressed := false, created_at := 0 }

/-- Step 0 of campaign 2. -/
def c10Step2 : CampaignStepRec :=
  { id := 7, campaign_id := 2, position := 0, delay_minutes := 0,
    subject := "Hey", body_text := some "Hello", body_html := none }

/-- The PENDING delivery of the campaign-2 recipient. -/
def c10Delivery2 : DeliveryRec :=
  { id := 8, step_id := 7, recipient_id := 2,
    status := DeliveryStatus.PENDING, last_error := none, sent_at := none,
    created_at := 0, message_id := none }

/-- Store holding the same email in two campaigns, each with a PENDING
delivery.  The campaign-1 recipient comes first in table order, so the
email lookup of handle_response finds it. -/
def c10DB : DB :=
  { campaigns := [c1Campaign, c10Campaign2],
    steps := [c1Step, c10Step2],
    recipients := [c1Recipient, c10Recipient2],
    deliveries :=
      [{ id := 1, step_id := 1, recipient_id := 1,
         status := DeliveryStatus.PENDING, last_error := none,
         sent_at := none, created_at := 0, message_id := none },
       c10Delivery2],
    responses := [] }

/-- Store with a campaign that has recipients but no position-0 step. -/
def c9NoStepDB : DB :=
  { campaigns := [c1Campaign], steps := [],
    recipients := [c1Recipient], deliveries := [], responses := [] }

/-- Store holding only the campaign row, before recipients are added. -/
def c6DB0 : DB :=
  { campaigns := [c1Campaign], steps := [c1Step], recipients := [],
    deliveries := [], responses := [] }

/-- The per-email template variables handed to add_recipients: the address
a@x.com carries the variables dict binding name to Alice. -/
def c6Vars : List (String × List (String × String)) :=
  [("a@x.com", [("name", "Alice")])]

/-- The store after add_recipients inserted a@x.com with those variables. -/
def c6DB1 : DB := (add_recipients c6DB0 0 1 1 ["a@x.com"] none (some c6Vars)).2

/-- The recipient row add_recipients is expected to have created: its
vars_json holds str() of the variables dict, which is the single-quoted
Python repr, not JSON. -/
def c6Rec : RecipientRec :=
  { id := 1, campaign_id := 1, email := "a@x.com", name := none,
    vars_json := some (pyStrOfDict [("name", "Alice")]), suppressed := false,
    created_at := 0 }

/-- The same variables dict serialized as actual JSON (double quotes), the
string json.dumps would have produced. -/
def c6JsonVars : String :=
  "\x7b" ++ dq ++ "name" ++ dq ++ ": " ++ dq ++ "Alice" ++ dq ++ "\x7d"

/- ----------------------------------------------------------------------
Helper lemmas.
---------------------------------------------------------------------- -/

/-- Mapping a function that fixes every element of a list is the
identity. -/
theorem map_eq_self_of {α : Type} (f : α → α) (l : List α)
    (h : ∀ x ∈ l, f x = x) : l.map f = l := by
  induction l with
  | nil => rfl
  | cons a t ih =>
    simp only [List.map_cons]
    rw [h a (by simp), ih (fun x hx => h x (by simp [hx]))]

/-- The query of process_pending_deliveries never returns a row: its last
criterion is the row-independent constant false that Python makes of
`not Recipient.suppressed`. -/
theorem pending_query_empty (db : DB) (cid : Option Nat) :
    pending_deliveries_query db cid = [] := by
  unfold pending_deliveries_query
  refine List.filter_eq_nil_iff.mpr ?_
  intro a _
  simp [recipientSuppressedAttrTruthy]

/-- Hence every processing pass returns zero, commits no transition and
never invokes the transport. -/
theorem process_pending_noop (db : DB) (send : SendCall → EmailResult)
    (h2t : String → String) (now : Int) (cid : Option Nat) :
    process_pending_deliveries db send h2t now cid =
      { sent_count := 0, db := db, calls := [] } := by
  unfold process_pending_deliveries
  rw [pending_query_empty]
  rfl

/-- The loop of initialize_campaign_deliveries only appends rows: every
pre-existing delivery row keeps its position and value. -/
theorem initLoop_frame (first_step_id : Nat) (now : Int) :
    ∀ (rs : List RecipientRec) (db : DB) (next_id count i : Nat),
      i < db.deliveries.length →
      ((initDeliveriesLoop first_step_id now rs db next_id count).2).deliveries[i]? =
        db.deliveries[i]? := by
  intro rs
  induction rs with
  | nil => intro db next_id count i h; rfl
  | cons r rest ih =>
    intro db next_id count i h
    unfold initDeliveriesLoop
    split
    · exact ih db next_id count i h
    · rw [ih _ (next_id + 1) (count + 1) i
        (by simpa using Nat.lt_succ_of_lt h)]
      exact List.getElem?_append_left h

/-- handle_response leaves every delivery row that is not PENDING exactly
as it was, whatever the flag or content. -/
theorem handle_response_keeps_nonpending (db : DB) (flag : Bool) (now : Int)
    (email content : String) (did : Option Nat) (i : Nat) (d : DeliveryRec)
    (hget : db.deliveries[i]? = some d)
    (hstat : d.status ≠ DeliveryStatus.PENDING) :
    (handle_response db flag now email content did).2.deliveries[i]? = some d := by
  unfold handle_response
  cases hf : db.recipients.find? (fun r => r.email == email) with
  | none => simpa using hget
  | some r =>
    simp only []
    split
    · simp only [List.getElem?_map, hget, Option.map_some, Option.map_some']
      have hcond : (d.recipient_id == r.id && d.status == DeliveryStatus.PENDING
          && db.steps.any (fun st => st.id == d.step_id)) = false := by
        cases hd : d.status <;> simp_all
      rw [hcond]
      simp
    · simpa using hget

/- ----------------------------------------------------------------------
Claim theorems.
---------------------------------------------------------------------- -/

/-- C1: contrary to the claim, process_pending_deliveries never sends
anything.  The first conjunct shows that on every store the pass returns a
zero count, leaves the store untouched and records no transport invocation;
the remaining conjuncts evaluate the exact claimed scenario (one campaign
with a position-0 step of delay 0, a non-suppressed recipient holding a
PENDING delivery, a transport that always succeeds): the per-delivery
readiness decision would pass, yet the query feeding the loop is empty, so
the count is 0, no transition is committed and the transport is invoked
zero times. -/
theorem process_pending_deliveries_sends_nothing :
    (∀ (db : DB) (send : SendCall → EmailResult) (h2t : String → String)
       (now : Int) (cid : Option Nat),
       process_pending_deliveries db send h2t now cid =
         { sent_count := 0, db := db, calls := [] }) ∧
    process_pending_deliveries c1DB alwaysOkTransport idHtmlToText 0 none =
      { sent_count := 0, db := c1DB, calls := [] } ∧
    readinessCheck c1DB 0 c1Step c1Recipient = true ∧
    pending_deliveries_query c1DB none = [] ∧
    c1DB.deliveries = [c1Delivery] ∧
    c1Delivery.status = DeliveryStatus.PENDING ∧
    c1Recipient.suppressed = false := by
  refine ⟨process_pending_noop, ?_, ?_, ?_, ?_, ?_, ?_⟩ <;> decide

/-- C7: a response from an email address that matches no recipient row
returns the PENDING classification and leaves the store exactly as it was,
creating no Response record. -/
theorem handle_response_unknown_email :
    ∀ (db : DB) (flag : Bool) (now : Int) (email content : String)
      (did : Option Nat),
      db.recipients.find? (fun r => r.email == email) = none →
      handle_response db flag now email content did =
        (ResponseStatus.PENDING, db) := by
  intro db flag now email content did h
  unfold handle_response
  rw [h]

/-- Witness for C7: the store of the cascade scenario holds no recipient
with address b@y.com, and the response is dropped. -/
theorem handle_response_unknown_email_witness :
    handle_response c5DB true 0 "b@y.com" "unsubscribe" none =
      (ResponseStatus.PENDING, c5DB) :=
  handle_response_unknown_email c5DB true 0 "b@y.com" "unsubscribe" none
    (by decide)

/-- C9: a missing campaign makes get_campaign_stats return the empty
result and initialize_campaign_deliveries return 0 with the store
untouched, and a campaign without a position-0 step makes
initialize_campaign_deliveries return 0 with the store untouched; all three
are total computations, not exceptions. -/
theorem missing_campaign_or_step_noop :
    ∀ (db : DB) (now : Int) (next_id : Nat) (cid : Nat),
      (db.campaigns.find? (fun c => c.id == cid) = none →
        get_campaign_stats db cid = none ∧
        initialize_campaign_deliveries db now next_id cid = (0, db)) ∧
      (db.steps.find? (fun st =>
          st.campaign_id == cid && st.position == 0) = none →
        initialize_campaign_deliveries db now next_id cid = (0, db)) := by
  intro db now next_id cid
  constructor
  · intro h
    constructor
    · unfold get_campaign_stats
      rw [h]
    · unfold initialize_campaign_deliveries
      rw [h]
  · intro h
    unfold initialize_campaign_deliveries
    cases hc : db.campaigns.find? (fun c => c.id == cid) with
    | none => rfl
    | some c => rw [h]

/-- Witness for C9: on the store whose campaign 1 has a recipient but no
steps, stats for the absent campaign 2 are empty, and initialization
returns 0 both for the absent campaign 2 and for campaign 1, which lacks a
position-0 step. -/
theorem missing_campaign_or_step_noop_witness :
    (get_campaign_stats c9NoStepDB 2 = none ∧
      initialize_campaign_deliveries c9NoStepDB 0 10 2 = (0, c9NoStepDB)) ∧
    initialize_campaign_deliveries c9NoStepDB 0 10 1 = (0, c9NoStepDB) :=
  ⟨(missing_campaign_or_step_noop c9NoStepDB 0 10 2).1 (by decide),
   (missing_campaign_or_step_noop c9NoStepDB 0 10 1).2 (by decide)⟩

/-- C3: the readiness decision for a position-0 step is due exactly when
the seconds elapsed since recipient creation reach the step delay in
minutes times 60, boundary inclusive: with delay 0 it is due at creation
time, with delay 60 minutes it is not due at creation plus 59 minutes and
due at creation plus 60 minutes. -/
theorem readiness_position_zero_boundary :
    (∀ (db : DB) (now : Int) (step : CampaignStepRec) (r : RecipientRec),
        step.position = 0 →
        (readinessCheck db now step r = true ↔
          step.delay_minutes * 60 ≤ now - r.created_at)) ∧
    readinessCheck noTableDB 0 c3StepDelay0 c3Recipient = true ∧
    readinessCheck noTableDB (59 * 60) c3StepDelay60 c3Recipient = false ∧
    readinessCheck noTableDB (60 * 60) c3StepDelay60 c3Recipient = true := by
  refine ⟨?_, by decide, by decide, by decide⟩
  intro db now step r hpos
  unfold readinessCheck
  rw [hpos]
  simp only [beq_self_eq_true, if_true]
  by_cases h : now - r.created_at < step.delay_minutes * 60
  · simp only [h, if_true]
    constructor
    · intro hfalse; exact absurd hfalse (by simp)
    · intro hle; omega
  · simp only [h, if_false]
    constructor
    · intro _; omega
    · intro _; trivial

/-- Witness for C3: the general boundary rule applied at creation plus
exactly 60 minutes with a 60-minute delay. -/
theorem readiness_position_zero_boundary_witness :
    readinessCheck noTableDB 3600 c3StepDelay60 c3Recipient = true :=
  (readiness_position_zero_boundary.1 noTableDB 3600 c3StepDelay60
    c3Recipient (by decide)).mpr (by decide)

/-- C2: a delivery of a position>0 step is not dispatched by
process_pending_deliveries unless a predecessor delivery for the
recipient's position-1 step exists with status SENT and the elapsed seconds
since its sent time reach the step delay: whenever that condition fails
(in particular when no position-1 step exists, when no predecessor delivery
exists, or when the predecessor is not SENT, at any elapsed time), the pass
returns the delivery row unchanged at its position and records no transport
invocation at all.  This holds because the operation dispatches nothing on
any store: its query carries the constant-false criterion described at
recipientSuppressedAttrTruthy, so the dispatch loop, and with it the
unreachable per-delivery gating, is never entered. -/
theorem later_step_dispatch_requires_sent_predecessor :
    ∀ (db : DB) (send : SendCall → EmailResult) (h2t : String → String)
      (now : Int) (cid : Option Nat) (i : Nat) (d : DeliveryRec)
      (step : CampaignStepRec) (r : RecipientRec),
      db.deliveries[i]? = some d →
      db.steps.find? (fun st => st.id == d.step_id) = some step →
      db.recipients.find? (fun x => x.id == d.recipient_id) = some r →
      step.position ≠ 0 →
      ¬ (∃ (prev_step : CampaignStepRec) (prev : DeliveryRec) (t : Int),
          db.steps.find? (fun st =>
            st.campaign_id == r.campaign_id &&
            st.position == step.position - 1) = some prev_step ∧
          db.deliveries.find? (fun x =>
            x.recipient_id == r.id && x.step_id == prev_step.id) = some prev ∧
          prev.status = DeliveryStatus.SENT ∧ prev.sent_at = some t ∧
          step.delay_minutes * 60 ≤ now - t) →
      ((process_pending_deliveries db send h2t now cid).db.deliveries[i]? =
         some d ∧
       (process_pending_deliveries db send h2t now cid).calls = []) := by
  intro db send h2t now cid i d step r hd hstep hr hpos hchain
  rw [process_pending_noop]
  exact ⟨hd, rfl⟩

/-- Witness for C2: on the broken-chain store, whose campaign has no
position-0 step, the PENDING position-1 delivery is not dispatched even at
a huge elapsed time: the pass leaves its row unchanged and makes no
transport call. -/
theorem later_step_dispatch_requires_sent_predecessor_witness :
    (process_pending_deliveries c2DB alwaysOkTransport idHtmlToText 1000000
        none).db.deliveries[0]? = some c2PendingDelivery ∧
    (process_pending_deliveries c2DB alwaysOkTransport idHtmlToText 1000000
        none).calls = [] :=
  later_step_dispatch_requires_sent_predecessor c2DB alwaysOkTransport
    idHtmlToText 1000000 none 0 c2PendingDelivery c2Step c1Recipient
    (by decide) (by decide) (by decide) (by decide)
    (by
      rintro ⟨ps, pv, t, hps, hpv, hsent, hsa, hle⟩
      have hnone : c2DB.steps.find? (fun st =>
          st.campaign_id == c1Recipient.campaign_id &&
          st.position == c2Step.position - 1) = none := by decide
      rw [hnone] at hps
      cases hps)

/-- C4: analyze_intent classifies by first-match priority.  Any lowered
text matched by an unsubscribe pattern classifies UNSUBSCRIBED no matter
what else matches; otherwise a negative match gives NEGATIVE; otherwise a
positive match gives POSITIVE; otherwise, and on empty input, PENDING.  The
last conjunct states case-insensitivity: two inputs with the same lowercase
form (and the same emptiness) classify identically. -/
theorem analyze_intent_priority :
    ∀ text : String,
      (anyPatternFound (strToLower text) UNSUBSCRIBE_PATTERNS = true →
        analyze_intent text = ResponseStatus.UNSUBSCRIBED) ∧
      (anyPatternFound (strToLower text) UNSUBSCRIBE_PATTERNS = false →
       anyPatternFound (strToLower text) NEGATIVE_PATTERNS = true →
        analyze_intent text = ResponseStatus.NEGATIVE) ∧
      (anyPatternFound (strToLower text) UNSUBSCRIBE_PATTERNS = false →
       anyPatternFound (strToLower text) NEGATIVE_PATTERNS = false →
       anyPatternFound (strToLower text) POSITIVE_PATTERNS = true →
        analyze_intent text = ResponseStatus.POSITIVE) ∧
      (anyPatternFound (strToLower text) UNSUBSCRIBE_PATTERNS = false →
       anyPatternFound (strToLower text) NEGATIVE_PATTERNS = false →
       anyPatternFound (strToLower text) POSITIVE_PATTERNS = false →
        analyze_intent text = ResponseStatus.PENDING) ∧
      analyze_intent "" = ResponseStatus.PENDING ∧
      (∀ other : String, strToLower text = strToLower other →
        (text = "" ↔ other = "") →
        analyze_intent text = analyze_intent other) := by
  intro text
  by_cases ht : text = ""
  · subst ht
    refine ⟨?_, ?_, ?_, ?_, by decide, ?_⟩
    · intro h; exact absurd h (by decide)
    · intro _ h; exact absurd h (by decide)
    · intro _ _ h; exact absurd h (by decide)
    · intro _ _ _; decide
    · intro other _ h2
      rw [h2.mp rfl]
  · refine ⟨?_, ?_, ?_, ?_, by decide, ?_⟩
    · intro h
      simp [analyze_intent, ht, h]
    · intro h1 h2
      simp [analyze_intent, ht, h1, h2]
    · intro h1 h2 h3
      simp [analyze_intent, ht, h1, h2, h3]
    · intro h1 h2 h3
      simp [analyze_intent, ht, h1, h2, h3]
    · intro other h1 h2
      have hto : ¬other = "" := fun hh => ht (h2.mpr hh)
      simp only [analyze_intent]
      rw [if_neg ht, if_neg hto, h1]

/-- Witness for C4: the priority rules applied at concrete inputs of the
specification, among them the mixed unsubscribe-and-positive phrase, and a
case-insensitivity instance. -/
theorem analyze_intent_priority_witness :
    analyze_intent "Please unsubscribe me, though it sounds good" =
      ResponseStatus.UNSUBSCRIBED ∧
    analyze_intent "Not interested, thanks" = ResponseStatus.NEGATIVE ∧
    analyze_intent "Sounds GOOD, schedule a demo" =
      ResponseStatus.POSITIVE ∧
    analyze_intent "hello world" = ResponseStatus.PENDING ∧
    analyze_intent "SOUNDS GOOD" = analyze_intent "sounds good" :=
  ⟨(analyze_intent_priority "Please unsubscribe me, though it sounds good").1
      (by decide),
   (analyze_intent_priority "Not interested, thanks").2.1
      (by decide) (by decide),
   (analyze_intent_priority "Sounds GOOD, schedule a demo").2.2.1
      (by decide) (by decide) (by decide),
   (analyze_intent_priority "hello world").2.2.2.1
      (by decide) (by decide) (by decide),
   (analyze_intent_priority "SOUNDS GOOD").2.2.2.2.2 "sounds good"
      (by decide) (by decide)⟩

/-- C8: SENT and FAILED are terminal.  A delivery row in either state is
returned unchanged, at its position, by every operation: a processing pass,
a response (whatever the flag and however the content classifies), and a
delivery initialization. -/
theorem terminal_statuses_never_change :
    ∀ (db : DB) (send : SendCall → EmailResult) (h2t : String → String)
      (now : Int) (cid : Option Nat) (flag : Bool) (email content : String)
      (did : Option Nat) (now2 now3 : Int) (next_id cid2 : Nat) (i : Nat)
      (d : DeliveryRec),
      db.deliveries[i]? = some d →
      (d.status = DeliveryStatus.SENT ∨ d.status = DeliveryStatus.FAILED) →
      ((process_pending_deliveries db send h2t now cid).db.deliveries[i]? =
         some d ∧
       (handle_response db flag now2 email content did).2.deliveries[i]? =
         some d ∧
       (initialize_campaign_deliveries db now3 next_id cid2).2.deliveries[i]? =
         some d) := by
  intro db send h2t now cid flag email content did now2 now3 next_id cid2 i d
    hget hterm
  have hstat : d.status ≠ DeliveryStatus.PENDING := by
    rcases hterm with h | h <;> rw [h] <;> intro hc <;> cases hc
  refine ⟨?_,
    handle_response_keeps_nonpending db flag now2 email content did i d hget
      hstat, ?_⟩
  · rw [process_pending_noop]
    exact hget
  · have hlen : i < db.deliveries.length := by
      rcases List.getElem?_eq_some_iff.mp hget with ⟨h, _⟩
      exact h
    unfold initialize_campaign_deliveries
    cases hc : db.campaigns.find? (fun c => c.id == cid2) with
    | none => exact hget
    | some c =>
      cases hstep : db.steps.find? (fun st =>
          st.campaign_id == cid2 && st.position == 0) with
      | none => exact hget
      | some first_step =>
        simp only []
        rw [initLoop_frame first_step.id now3 _ db next_id 0 i hlen]
        exact hget

/-- Witness for C8: the SENT delivery at index 1 of the cascade store is
untouched by a processing pass, by an unsubscribe response, and by a
delivery initialization. -/
theorem terminal_statuses_never_change_witness :
    (process_pending_deliveries c5DB alwaysOkTransport idHtmlToText 0
        none).db.deliveries[1]? = some c5Sent ∧
    (handle_response c5DB true 0 "a@x.com" "unsubscribe please"
        none).2.deliveries[1]? = some c5Sent ∧
    (initialize_campaign_deliveries c5DB 0 50 1).2.deliveries[1]? =
      some c5Sent :=
  terminal_statuses_never_change c5DB alwaysOkTransport idHtmlToText 0 none
    true "a@x.com" "unsubscribe please" none 0 0 50 1 1 c5Sent (by decide)
    (Or.inl (by decide))

/-- Equation for handle_response when the recipient is found, the content
classifies UNSUBSCRIBED and the auto-unsubscribe flag is on: the result is
the UNSUBSCRIBED label together with the store holding the appended
Response row, the suppressed recipient, and the cascaded delivery
transitions. -/
theorem handle_response_unsub_eq (db : DB) (now : Int) (email content : String)
    (did : Option Nat) (r : RecipientRec)
    (hr : db.recipients.find? (fun x => x.email == email) = some r)
    (hs : analyze_intent content = ResponseStatus.UNSUBSCRIBED) :
    handle_response db true now email content did =
      (ResponseStatus.UNSUBSCRIBED,
       { campaigns := db.campaigns, steps := db.steps,
         recipients := db.recipients.map (fun x =>
           if x.id == r.id then { x with suppressed := true } else x),
         deliveries := db.deliveries.map (fun d =>
           if d.recipient_id == r.id && d.status == DeliveryStatus.PENDING &&
              db.steps.any (fun st => st.id == d.step_id) then
             { d with status := DeliveryStatus.FAILED,
                      last_error := some "Recipient unsubscribed" }
           else d),
         responses := db.responses ++
           [{ recipient_id := r.id, delivery_id := did, content := content,
              status := ResponseStatus.UNSUBSCRIBED, created_at := now }] }) := by
  unfold handle_response
  rw [hr]
  simp only [hs]
  rfl

/-- C5: with the auto-unsubscribe flag on and content classifying
UNSUBSCRIBED, handle_response suppresses the found recipient, transitions
each of that recipient's PENDING deliveries (whose step row exists, as the
query joins the step table) to FAILED with the unsubscribe message, leaves
every non-PENDING delivery untouched, and an identical second call changes
no delivery at all. -/
theorem handle_response_unsubscribe_cascade :
    ∀ (db : DB) (now : Int) (email content : String) (did : Option Nat)
      (r : RecipientRec),
      db.recipients.find? (fun x => x.email == email) = some r →
      analyze_intent content = ResponseStatus.UNSUBSCRIBED →
      ((∀ (j : Nat) (x : RecipientRec), db.recipients[j]? = some x →
          x.id = r.id →
          (handle_response db true now email content did).2.recipients[j]? =
            some { x with suppressed := true }) ∧
       (∀ (i : Nat) (d : DeliveryRec), db.deliveries[i]? = some d →
          d.recipient_id = r.id →
          d.status = DeliveryStatus.PENDING →
          db.steps.any (fun st => st.id == d.step_id) = true →
          (handle_response db true now email content did).2.deliveries[i]? =
            some { d with status := DeliveryStatus.FAILED,
                          last_error := some "Recipient unsubscribed" }) ∧
       (∀ (i : Nat) (d : DeliveryRec), db.deliveries[i]? = some d →
          d.status ≠ DeliveryStatus.PENDING →
          (handle_response db true now email content did).2.deliveries[i]? =
            some d) ∧
       (handle_response (handle_response db true now email content did).2
          true now email content did).2.deliveries =
         (handle_response db true now email content did).2.deliveries) := by
  intro db now email content did r hr hs
  rw [handle_response_unsub_eq db now email content did r hr hs]
  refine ⟨?_, ?_, ?_, ?_⟩
  · intro j x hx hid
    simp only [List.getElem?_map, hx, Option.map_some']
    simp [hid]
  · intro i d hd hrid hstat hstep
    simp only [List.getElem?_map, hd, Option.map_some']
    simp [hrid, hstat, hstep]
  · intro i d hd hstat
    simp only [List.getElem?_map, hd, Option.map_some']
    have hc : (d.status == DeliveryStatus.PENDING) = false := by
      cases hx : d.status <;> simp_all
    simp [hc]
  · have hfind2 : (db.recipients.map (fun x =>
        if x.id == r.id then { x with suppressed := true } else x)).find?
        (fun x => x.email == email) = some { r with suppressed := true } := by
      rw [List.find?_map]
      have hgr : ((fun x : RecipientRec => x.email == email) ∘ (fun x =>
          if x.id == r.id then { x with suppressed := true } else x)) =
          (fun x : RecipientRec => x.email == email) := by
        funext x
        by_cases h : x.id = r.id <;> simp [h]
      rw [hgr, hr]
      simp
    rw [handle_response_unsub_eq _ now email content did _ hfind2 hs]
    dsimp only []
    apply map_eq_self_of
    intro x hx
    rcases List.mem_map.1 hx with ⟨y, hy, rfl⟩
    by_cases hcy : (y.recipient_id == r.id &&
        y.status == DeliveryStatus.PENDING &&
        db.steps.any (fun st => st.id == y.step_id)) = true
    · rw [if_pos hcy]
      simp
    · rw [if_neg hcy, if_neg hcy]

/-- Witness for C5: on the cascade store, the unsubscribe response
suppresses the recipient, fails its PENDING delivery with the unsubscribe
message, leaves the SENT delivery untouched, and a second identical call
leaves all deliveries unchanged. -/
theorem handle_response_unsubscribe_cascade_witness :
    (handle_response c5DB true 0 "a@x.com" "unsubscribe please"
        none).2.recipients[0]? = some { c1Recipient with suppressed := true } ∧
    (handle_response c5DB true 0 "a@x.com" "unsubscribe please"
        none).2.deliveries[0]? =
      some { c5Pending with status := DeliveryStatus.FAILED,
                            last_error := some "Recipient unsubscribed" } ∧
    (handle_response c5DB true 0 "a@x.com" "unsubscribe please"
        none).2.deliveries[1]? = some c5Sent ∧
    (handle_response (handle_response c5DB true 0 "a@x.com"
        "unsubscribe please" none).2 true 0 "a@x.com" "unsubscribe please"
        none).2.deliveries =
      (handle_response c5DB true 0 "a@x.com" "unsubscribe please"
        none).2.deliveries := by
  have h := handle_response_unsubscribe_cascade c5DB 0 "a@x.com"
    "unsubscribe please" none c1Recipient (by decide) (by decide)
  exact ⟨h.1 0 c1Recipient (by decide) rfl,
         h.2.1 0 c5Pending (by decide) (by decide) (by decide) (by decide),
         h.2.2.1 1 c5Sent (by decide) (by decide),
         h.2.2.2⟩

/-- C10: when the same email address is a recipient of several campaigns,
the unsubscribe automation of handle_response touches only the one
recipient row the email lookup returns (the first in table order) and only
that row's deliveries; every recipient row with a different id and every
delivery of a different recipient is returned unchanged at its position. -/
theorem handle_response_cross_campaign_frame :
    ∀ (db : DB) (now : Int) (email content : String) (did : Option Nat)
      (r : RecipientRec),
      db.recipients.find? (fun x => x.email == email) = some r →
      analyze_intent content = ResponseStatus.UNSUBSCRIBED →
      ((∀ (j : Nat) (x : RecipientRec), db.recipients[j]? = some x →
          x.id ≠ r.id →
          (handle_response db true now email content did).2.recipients[j]? =
            some x) ∧
       (∀ (i : Nat) (d : DeliveryRec), db.deliveries[i]? = some d →
          d.recipient_id ≠ r.id →
          (handle_response db true now email content did).2.deliveries[i]? =
            some d) ∧
       (∀ (j : Nat) (x : RecipientRec), db.recipients[j]? = some x →
          x.id = r.id →
          (handle_response db true now email content did).2.recipients[j]? =
            some { x with suppressed := true })) := by
  intro db now email content did r hr hs
  rw [handle_response_unsub_eq db now email content did r hr hs]
  refine ⟨?_, ?_, ?_⟩
  · intro j x hx hid
    simp only [List.getElem?_map, hx, Option.map_some']
    simp [hid]
  · intro i d hd hrid
    simp only [List.getElem?_map, hd, Option.map_some']
    simp [hrid]
  · intro j x hx hid
    simp only [List.getElem?_map, hx, Option.map_some']
    simp [hid]

/-- Witness for C10: on the two-campaign store sharing the address, the
unsubscribe response suppresses the campaign-1 recipient found first, while
the campaign-2 recipient row and its PENDING delivery are unchanged. -/
theorem handle_response_cross_campaign_frame_witness :
    (handle_response c10DB true 0 "a@x.com" "unsubscribe me"
        none).2.recipients[1]? = some c10Recipient2 ∧
    (handle_response c10DB true 0 "a@x.com" "unsubscribe me"
        none).2.deliveries[1]? = some c10Delivery2 ∧
    (handle_response c10DB true 0 "a@x.com" "unsubscribe me"
        none).2.recipients[0]? =
      some { c1Recipient with suppressed := true } := by
  have h := handle_response_cross_campaign_frame c10DB 0 "a@x.com"
    "unsubscribe me" none c1Recipient (by decide) (by decide)
  exact ⟨h.1 1 c10Recipient2 (by decide) (by decide),
         h.2.1 1 c10Delivery2 (by decide) (by decide),
         h.2.2 0 c1Recipient (by decide) rfl⟩

/-- C6: the supplied template variables never reach the dispatched message.
add_recipients stores str() of the variables dict into vars_json, a
single-quoted Python repr rather than JSON; json.loads rejects it (none),
the failure is swallowed, and the variable-building step of
_send_campaign_email falls back to the defaults, so name maps to the email
local part a instead of the supplied Alice.  The last two conjuncts show
the merge logic itself honors a supplied name when vars_json holds actual
JSON, isolating the storage slip (and the built dict is in any case never
handed to the transport, see sendCampaignEmail). -/
theorem add_recipients_supplied_name_lost :
    (add_recipients c6DB0 0 1 1 ["a@x.com"] none (some c6Vars)).1 = 1 ∧
    c6DB1.recipients[0]? = some c6Rec ∧
    c6Rec.vars_json = some (pyStrOfDict [("name", "Alice")]) ∧
    pyStrOfDict [("name", "Alice")] =
      "\x7b" ++ sq ++ "name" ++ sq ++ ": " ++ sq ++ "Alice" ++ sq ++ "\x7d" ∧
    jsonLoadsStrDict (pyStrOfDict [("name", "Alice")]) = none ∧
    sendEmailVariables c6Rec = [("name", "a"), ("email", "a@x.com")] ∧
    dictGet (sendEmailVariables c6Rec) "name" = some "a" ∧
    some "a" ≠ some "Alice" ∧
    jsonLoadsStrDict c6JsonVars = some [("name", "Alice")] ∧
    sendEmailVariables { c6Rec with vars_json := some c6JsonVars } =
      [("name", "Alice"), ("email", "a@x.com")] := by
  refine ⟨?_, ?_, ?_, ?_, ?_, ?_, ?_, ?_, ?_, ?_⟩ <;> decide

end Vello
